import Mathlib

/-!
Verification of `simple_load_impress.py`, a catalog/file-resolution utility.

The module holds a fixed catalog of image filenames (`AVAILABLE_IMAGES`) and
exposes three query operations:
- `load_impress` with a name: resolve one catalog entry against the filesystem;
- `load_impress` with `download_all = true`: resolve all existing entries;
- `load_impress` with neither: return the catalog names;
plus `list_available_images` and `get_image_info`.

The embedding is pure: the filesystem is a predicate `fs : String → Bool`
giving existence of a path string, and the current working directory is an
explicit `cwd : String`.  `Path.cwd() / name` is modelled by string join with
a `/` separator.  Raised exceptions become the `Except` error branch, and the
`print` warnings of the bulk branch are returned alongside the result as a
list of emitted lines.  Python truthiness of the optional `image_name`
argument (`None` and `""` are falsy) is modelled by `optTruthy`.
-/

namespace SimpleLoadImpress

/-- The fixed catalog of image filenames (`AVAILABLE_IMAGES` in the source). -/
def AVAILABLE_IMAGES : List String := [
  "스크린샷 2025-08-17 오후 5.49.14.png",
  "스크린샷 2025-08-17 오후 5.52.20.png",
  "스크린샷 2025-08-17 오후 5.53.59.png",
  "스크린샷 2025-08-17 오후 5.56.35.png",
  "스크린샷 2025-08-17 오후 5.58.16.png",
  "스크린샷 2025-08-17 오후 6.02.05.png",
  "스크린샷 2025-08-17 오후 6.11.50.png",
  "스크린샷 2025-08-17 오후 6.13.30.png",
  "스크린샷 2025-08-17 오후 6.15.07.png"]

/-- The two exception kinds `load_impress` can raise:
`ValueError` (unknown catalog entry) and `FileNotFoundError` (missing file). -/
inductive PyErr where
  | valueError (msg : String)
  | fileNotFoundError (msg : String)
  deriving DecidableEq, Repr

/-- The possible return values of `load_impress`: a single resolved path,
a list of resolved paths (`download_all` branch), or the list of catalog
names (default branch). -/
inductive LoadResult where
  | path (p : String)
  | pathList (ps : List String)
  | nameList (ns : List String)
  deriving DecidableEq, Repr

/-- Path join: `dir / name` on paths, modelled as string join. -/
def pathJoin (dir name : String) : String := dir ++ "/" ++ name

/-- Python `repr` of one of the catalog strings (they contain no quotes or
backslashes, so `repr` just wraps in single quotes). -/
def pyRepr (s : String) : String := "\x27" ++ s ++ "\x27"

/-- Comma-separated body of the Python `repr` of a list of strings. -/
def pyListReprAux : List String → String
  | [] => ""
  | [s] => pyRepr s
  | s :: t :: rest => pyRepr s ++ ", " ++ pyListReprAux (t :: rest)

/-- Python `repr` of a list of strings, as interpolated by the f-string
`f"... {AVAILABLE_IMAGES}"` in the source. -/
def pyListRepr (l : List String) : String := "[" ++ pyListReprAux l ++ "]"

/-- The `ValueError` message raised for a name outside the catalog. -/
def unknownMsg (name : String) : String :=
  "Image \x27" ++ name ++ "\x27 not found. Available images: " ++
    pyListRepr AVAILABLE_IMAGES

/-- The `FileNotFoundError` message raised for a missing file. -/
def notFoundMsg (image_path : String) : String :=
  "Image file not found: " ++ image_path

/-- The warning line printed for a catalog entry absent from the directory. -/
def warnMsg (filename : String) : String :=
  "Warning: " ++ filename ++ " not found in current directory"

/-- Python truthiness of an `Optional[str]`: `None` and `""` are falsy. -/
def optTruthy : Option String → Bool
  | none => false
  | some s => !s.isEmpty

/-- The `for filename in AVAILABLE_IMAGES` loop of the `download_all`
branch: collects existing resolved paths in order and a warning line for
each missing entry. -/
def downloadLoop (fs : String → Bool) (cwd : String) :
    List String → List String × List String
  | [] => ([], [])
  | filename :: rest =>
    let image_path := pathJoin cwd filename
    let (ps, ws) := downloadLoop fs cwd rest
    if fs image_path then (image_path :: ps, ws)
    else (ps, warnMsg filename :: ws)

/-- Function `load_impress`, parameterized by the catalog it reads (the
module-level global in the source).  Returns the result (or raised error) together with
the list of printed warning lines. -/
def load_impress_cat (catalog : List String) (fs : String → Bool)
    (cwd : String) (image_name : Option String) (download_all : Bool)
    ( force_download : Bool) : Except PyErr LoadResult × List String :=
  if optTruthy image_name then
    let name := image_name.getD ""
    if name ∉ catalog then
      (.error (.valueError ("Image \x27" ++ name ++
        "\x27 not found. Available images: " ++ pyListRepr catalog)), [])
    else
      let image_path := pathJoin cwd name
      if !fs image_path then
        (.error (.fileNotFoundError (notFoundMsg image_path)), [])
      else
        (.ok (.path image_path), [])
  else if download_all then
    let (paths, warns) := downloadLoop fs cwd catalog
    (.ok (.pathList paths), warns)
  else
    (.ok (.nameList catalog), [])

/-- Function `load_impress` reading the module-level catalog. -/
def load_impress (fs : String → Bool) (cwd : String)
    (image_name : Option String) (download_all : Bool)
    ( force_download : Bool) : Except PyErr LoadResult × List String :=
  load_impress_cat AVAILABLE_IMAGES fs cwd image_name download_all
    force_download

/-- Function `list_available_images`, parameterized by the catalog; `.copy()` returns
a list with the same elements in the same order. -/
def list_available_images_cat (catalog : List String) : List String := catalog

/-- Function `list_available_images` reading the module-level catalog. -/
def list_available_images : List String :=
  list_available_images_cat AVAILABLE_IMAGES

/-- The dictionary returned by `get_image_info`. -/
structure ImageInfo where
  total_images : Nat
  existing_images : Nat
  available_images : List String
  existing_files : List String
  current_directory : String
  description : String
  deriving DecidableEq, Repr

/-- Function `get_image_info`, parameterized by the catalog it reads. -/
def get_image_info_cat (catalog : List String) (fs : String → Bool)
    (cwd : String) : ImageInfo :=
  let existing_images := catalog.filter (fun img => fs (pathJoin cwd img))
  { total_images := catalog.length
    existing_images := existing_images.length
    available_images := catalog
    existing_files := existing_images
    current_directory := cwd
    description :=
      "ICT Impression Wave Verification Screenshots from 2025-08-17" }

/-- Function `get_image_info` reading the module-level catalog. -/
def get_image_info (fs : String → Bool) (cwd : String) : ImageInfo :=
  get_image_info_cat AVAILABLE_IMAGES fs cwd

/-- The module-level mutable state of the Python module: the catalog list.
Used to state that no operation mutates the catalog. -/
structure ModuleState where
  AVAILABLE_IMAGES : List String
  deriving DecidableEq, Repr

/-- Function `load_impress` as a state transformer on the module state: the code
contains no assignment to the catalog, so the state comes back unchanged. -/
def load_impress_st (st : ModuleState) (fs : String → Bool) (cwd : String)
    (image_name : Option String) (download_all : Bool)
    ( force_download : Bool) :
    (Except PyErr LoadResult × List String) × ModuleState :=
  (load_impress_cat st.AVAILABLE_IMAGES fs cwd image_name download_all
    force_download, st)

/-- Function `list_available_images` as a state transformer on the module state. -/
def list_available_images_st (st : ModuleState) : List String × ModuleState :=
  (list_available_images_cat st.AVAILABLE_IMAGES, st)

/-- Function `get_image_info` as a state transformer on the module state. -/
def get_image_info_st (st : ModuleState) (fs : String → Bool)
    (cwd : String) : ImageInfo × ModuleState :=
  (get_image_info_cat st.AVAILABLE_IMAGES fs cwd, st)

/-- Leading-match test: does `sub` occur at the head of `big`? -/
def isSubAt : List Char → List Char → Bool
  | [], _ => true
  | _ :: _, [] => false
  | c :: cs, d :: ds => c == d && isSubAt cs ds

/-- Substring occurrence test on character lists, used to state that an
error message enumerates the catalog names. -/
def hasSub (sub : List Char) : List Char → Bool
  | [] => sub.isEmpty
  | d :: ds => isSubAt sub (d :: ds) || hasSub sub ds

/-- An occurrence in `b` is an occurrence in `a ++ b`. -/
lemma hasSub_append_left (sub b : List Char) (h : hasSub sub b = true) :
    ∀ a : List Char, hasSub sub (a ++ b) = true := by
  intro a
  induction a with
  | nil => simpa using h
  | cons c cs ih =>
    simp only [List.cons_append, hasSub, Bool.or_eq_true]
    exact Or.inr ih

/-- Every catalog name is non-empty: membership implies Python truthiness. -/
lemma catalog_names_nonempty :
    ∀ n ∈ AVAILABLE_IMAGES, n.isEmpty = false := by decide

/-- Unfolding of the `download_all` loop: the collected paths are the
existing catalog entries in order, resolved under `cwd`, and one warning
line is emitted per missing entry, in order. -/
lemma downloadLoop_eq (fs : String → Bool) (cwd : String) :
    ∀ l : List String,
      downloadLoop fs cwd l =
        ((l.filter (fun n => fs (pathJoin cwd n))).map (pathJoin cwd),
         (l.filter (fun n => !fs (pathJoin cwd n))).map warnMsg) := by
  intro l
  induction l with
  | nil => rfl
  | cons x xs ih =>
    cases h : fs (pathJoin cwd x) with
    | true => simp [downloadLoop, ih, List.filter_cons, h]
    | false => simp [downloadLoop, ih, List.filter_cons, h]

/-- C6: `list_available_images` returns the fixed nine-element catalog, in
catalog order; it takes no filesystem argument, and being a constant, any
two calls yield the same list. -/
theorem list_available_images_fixed :
    list_available_images.length = 9 ∧
    list_available_images = AVAILABLE_IMAGES ∧
    list_available_images = list_available_images :=
  ⟨rfl, rfl, rfl⟩

/-- C7: `force_download` has no effect: two calls differing only in it
return identical results (value or error) and identical warning output. -/
theorem force_download_no_effect (fs : String → Bool) (cwd : String)
    (image_name : Option String) (download_all f₁ f₂ : Bool) :
    load_impress fs cwd image_name download_all f₁ =
      load_impress fs cwd image_name download_all f₂ := rfl

/-- C9: no operation mutates the catalog: each state-threaded operation
returns the module state it was given, so the catalog's contents and order
before and after every operation are equal. -/
theorem catalog_operations_preserve_state (st : ModuleState)
    (fs : String → Bool) (cwd : String) (image_name : Option String)
    (download_all f : Bool) :
    (load_impress_st st fs cwd image_name download_all f).2 = st ∧
    (list_available_images_st st).2 = st ∧
    (get_image_info_st st fs cwd).2 = st :=
  ⟨rfl, rfl, rfl⟩

/-- C10: with `image_name` equal to `None` or `""` and `download_all`
false, `load_impress` returns the full ordered list of catalog names (not
paths) with no warning output, independent of the filesystem, and raises
nothing: the empty string is routed to the default branch. -/
theorem default_branch_returns_names (fs : String → Bool) (cwd : String)
    (f : Bool) :
    load_impress fs cwd none false f =
        (.ok (.nameList AVAILABLE_IMAGES), []) ∧
    load_impress fs cwd (some "") false f =
        (.ok (.nameList AVAILABLE_IMAGES), []) :=
  ⟨rfl, rfl⟩

/-- Helper: Python truthiness of a non-empty string name. -/
lemma isEmpty_false_of_ne (name : String) (hne : name ≠ "") :
    name.isEmpty = false := by
  cases he : name.isEmpty with
  | false => rfl
  | true => exact absurd ((String.isEmpty_iff name).mp he) hne

set_option maxRecDepth 40000 in
/-- Every catalog name occurs inside the Python `repr` of the catalog. -/
lemma catalog_names_in_repr :
    ∀ img ∈ AVAILABLE_IMAGES,
      hasSub img.data (pyListRepr AVAILABLE_IMAGES).data = true := by decide

/-- C1 (amended): for every non-empty name outside the catalog,
`load_impress` raises `ValueError` with the unknown-entry message, and that
message contains every valid catalog name. -/
theorem resolve_one_unknown_enumerates (fs : String → Bool) (cwd : String)
    (name : String) (download_all f : Bool) (hne : name ≠ "")
    (hmem : name ∉ AVAILABLE_IMAGES) :
    load_impress fs cwd (some name) download_all f =
        (.error (.valueError (unknownMsg name)), []) ∧
    ∀ img ∈ AVAILABLE_IMAGES,
      hasSub img.data (unknownMsg name).data = true := by
  constructor
  · have hne' : name.isEmpty = false := isEmpty_false_of_ne name hne
    simp [load_impress, load_impress_cat, optTruthy, hne', hmem, unknownMsg]
  · intro img himg
    have h2 : (unknownMsg name).data =
        ("Image \x27" ++ name ++
          "\x27 not found. Available images: ").data ++
          (pyListRepr AVAILABLE_IMAGES).data := rfl
    rw [h2]
    exact hasSub_append_left _ _ (catalog_names_in_repr img himg) _

/-- C1 witness: a concrete unknown name yields the enumerating error. -/
theorem resolve_one_unknown_enumerates_witness :
    ("nope.png" ≠ "") ∧ ("nope.png" ∉ AVAILABLE_IMAGES) ∧
    (load_impress (fun _ => false) "/base" (some "nope.png") false false =
        (.error (.valueError (unknownMsg "nope.png")), []) ∧
      ∀ img ∈ AVAILABLE_IMAGES,
        hasSub img.data (unknownMsg "nope.png").data = true) :=
  ⟨by decide, by decide,
    resolve_one_unknown_enumerates (fun _ => false) "/base" "nope.png"
      false false (by decide) (by decide)⟩

/-- C1 counterexample to the claim as stated: the empty string is not a
catalog member, yet `load_impress` with `image_name = ""` does not raise
`ValueError` — Python truthiness routes it to the default branch, which
returns the catalog name list. -/
theorem empty_name_routed_to_default :
    ("" ∉ AVAILABLE_IMAGES) ∧
    load_impress (fun _ => false) "/base" (some "") false false =
      (.ok (.nameList AVAILABLE_IMAGES), []) :=
  ⟨by decide, rfl⟩

/-- C2: a catalog name whose resolved file exists is resolved to
`cwd / name`, with no warning output. -/
theorem resolve_one_returns_joined_path (fs : String → Bool) (cwd : String)
    (name : String) (download_all f : Bool)
    (hmem : name ∈ AVAILABLE_IMAGES)
    (hex : fs (pathJoin cwd name) = true) :
    load_impress fs cwd (some name) download_all f =
      (.ok (.path (pathJoin cwd name)), []) := by
  have hne : name.isEmpty = false := catalog_names_nonempty name hmem
  simp [load_impress, load_impress_cat, optTruthy, hne, hmem, hex]

/-- C2 witness: the first catalog entry under an all-existing filesystem. -/
theorem resolve_one_returns_joined_path_witness :
    ("스크린샷 2025-08-17 오후 5.49.14.png" ∈ AVAILABLE_IMAGES) ∧
    load_impress (fun _ => true) "/base"
        (some "스크린샷 2025-08-17 오후 5.49.14.png") false false =
      (.ok (.path (pathJoin "/base"
        "스크린샷 2025-08-17 오후 5.49.14.png")), []) :=
  ⟨by decide,
    resolve_one_returns_joined_path (fun _ => true) "/base"
      "스크린샷 2025-08-17 오후 5.49.14.png" false false (by decide) rfl⟩

/-- C3: a catalog name whose resolved file is absent raises
`FileNotFoundError` with the missing-file message. -/
theorem resolve_one_missing_file_error (fs : String → Bool) (cwd : String)
    (name : String) (download_all f : Bool)
    (hmem : name ∈ AVAILABLE_IMAGES)
    (habs : fs (pathJoin cwd name) = false) :
    load_impress fs cwd (some name) download_all f =
      (.error (.fileNotFoundError (notFoundMsg (pathJoin cwd name))), []) := by
  have hne : name.isEmpty = false := catalog_names_nonempty name hmem
  simp [load_impress, load_impress_cat, optTruthy, hne, hmem, habs]

/-- C3 witness: the first catalog entry under an empty filesystem. -/
theorem resolve_one_missing_file_error_witness :
    ("스크린샷 2025-08-17 오후 5.49.14.png" ∈ AVAILABLE_IMAGES) ∧
    load_impress (fun _ => false) "/base"
        (some "스크린샷 2025-08-17 오후 5.49.14.png") false false =
      (.error (.fileNotFoundError (notFoundMsg (pathJoin "/base"
        "스크린샷 2025-08-17 오후 5.49.14.png"))), []) :=
  ⟨by decide,
    resolve_one_missing_file_error (fun _ => false) "/base"
      "스크린샷 2025-08-17 오후 5.49.14.png" false false (by decide) rfl⟩

/-- C4: the `download_all` branch returns exactly the catalog entries whose
files exist, resolved under `cwd`, in catalog order — the selected entries
are a sublist of the catalog — and for a filesystem containing none of the
files it returns the empty list, raising nothing. -/
theorem resolve_all_existing_filters_catalog (fs : String → Bool)
    (cwd : String) (f : Bool) :
    load_impress fs cwd none true f =
        (.ok (.pathList ((AVAILABLE_IMAGES.filter
            (fun n => fs (pathJoin cwd n))).map (pathJoin cwd))),
         (AVAILABLE_IMAGES.filter
            (fun n => !fs (pathJoin cwd n))).map warnMsg) ∧
    (AVAILABLE_IMAGES.filter
        (fun n => fs (pathJoin cwd n))).Sublist AVAILABLE_IMAGES ∧
    ((∀ n ∈ AVAILABLE_IMAGES, fs (pathJoin cwd n) = false) →
      load_impress fs cwd none true f =
        (.ok (.pathList []), AVAILABLE_IMAGES.map warnMsg)) := by
  refine ⟨?_, List.filter_sublist _, ?_⟩
  · simp [load_impress, load_impress_cat, optTruthy, downloadLoop_eq]
  · intro hall
    have h1 : AVAILABLE_IMAGES.filter (fun n => fs (pathJoin cwd n)) = [] :=
      List.filter_eq_nil_iff.mpr (by intro n hn; simp [hall n hn])
    have h2 : AVAILABLE_IMAGES.filter (fun n => !fs (pathJoin cwd n)) =
        AVAILABLE_IMAGES :=
      List.filter_eq_self.mpr (by intro n hn; simp [hall n hn])
    simp [load_impress, load_impress_cat, optTruthy, downloadLoop_eq, h1, h2]

/-- C4 witness: an empty filesystem gives an empty result list and one
warning per catalog entry. -/
theorem resolve_all_existing_filters_catalog_witness :
    load_impress (fun _ => false) "/base" none true false =
      (.ok (.pathList []), AVAILABLE_IMAGES.map warnMsg) :=
  (resolve_all_existing_filters_catalog (fun _ => false) "/base" false).2.2
    (fun _ _ => rfl)

/-- C5: the record returned by `get_image_info` satisfies the stated
invariants: the existing count equals the length of `existing_files`, is at
most the total count, the total count is the catalog length, and every
listed existing file is a catalog member. -/
theorem get_image_info_invariants (fs : String → Bool) (cwd : String) :
    (get_image_info fs cwd).existing_images =
        (get_image_info fs cwd).existing_files.length ∧
    (get_image_info fs cwd).existing_images ≤
        (get_image_info fs cwd).total_images ∧
    (get_image_info fs cwd).total_images = AVAILABLE_IMAGES.length ∧
    ∀ n ∈ (get_image_info fs cwd).existing_files,
      n ∈ (get_image_info fs cwd).available_images := by
  refine ⟨rfl, ?_, rfl, ?_⟩
  · simp only [get_image_info, get_image_info_cat]
    exact List.length_filter_le _ _
  · intro n hn
    simp only [get_image_info, get_image_info_cat] at hn ⊢
    exact List.mem_of_mem_filter hn

/-- C5 witness: the invariants at a concrete filesystem and directory. -/
theorem get_image_info_invariants_witness :
    (get_image_info (fun _ => true) "/base").existing_images =
        (get_image_info (fun _ => true) "/base").existing_files.length ∧
    (get_image_info (fun _ => true) "/base").existing_images ≤
        (get_image_info (fun _ => true) "/base").total_images ∧
    (get_image_info (fun _ => true) "/base").total_images =
        AVAILABLE_IMAGES.length ∧
    ∀ n ∈ (get_image_info (fun _ => true) "/base").existing_files,
      n ∈ (get_image_info (fun _ => true) "/base").available_images :=
  get_image_info_invariants (fun _ => true) "/base"

/-- C8: the bulk operations never raise: the `download_all` branch always
returns an `ok` path list consisting of exactly the existing entries, with
one warning line per missing (excluded) entry, and `get_image_info` — a
total function — reports exactly the existing entries. -/
theorem bulk_ops_total (fs : String → Bool) (cwd : String) (f : Bool) :
    (∃ ps, (load_impress fs cwd none true f).1 = .ok (.pathList ps) ∧
        ps = (AVAILABLE_IMAGES.filter
          (fun n => fs (pathJoin cwd n))).map (pathJoin cwd)) ∧
    (load_impress fs cwd none true f).2 =
        (AVAILABLE_IMAGES.filter (fun n => !fs (pathJoin cwd n))).map
          warnMsg ∧
    (get_image_info fs cwd).existing_files =
        AVAILABLE_IMAGES.filter (fun n => fs (pathJoin cwd n)) := by
  refine ⟨⟨_, ?_, rfl⟩, ?_, rfl⟩
  · simp [load_impress, load_impress_cat, optTruthy, downloadLoop_eq]
  · simp [load_impress, load_impress_cat, optTruthy, downloadLoop_eq]

end SimpleLoadImpress
